import Mathlib

/-!
Verification of the turbo_diesel data-access layer against its specification.

The development shallowly embeds the repository's three source files:
* `src/filter.rs` — `GenericClause`, `GenericFilter` and its builder methods;
* `src/db.rs` — `DbDriver` (`new`, `get_conn`, `execute`) and the CRUD
  contracts `DbModelCreate`, `DbModelDelByPk`, `DbModelDelBy`;
* `src/main.rs` — the `users` table, `DbUser`, and its `gen_del_query`.

External capabilities (the r2d2 pool, the ntex blocking-task runtime, the
diesel backend) are modelled by explicit parameters: the pool's answer to a
connection request, whether the offloaded closure ran to completion, and a
table state as a list of rows. Rust `HashMap<String, _>` is modelled as an
association list with unique keys and replace-on-insert semantics, observed
only through lookup (a hash map's iteration order is unspecified).
-/

/-- JSON values, modelling `serde_json::Value`. Numbers are restricted to the
naturals, which covers every number the repository serializes (`usize` limit
and offset). Objects keep their fields as an ordered association list. -/
inductive Json where
  | null : Json
  | bool (b : Bool) : Json
  | num (n : Nat) : Json
  | str (s : String) : Json
  | arr (elems : List Json) : Json
  | obj (fields : List (String × Json)) : Json

/-- Embeds `GenericClause` (src/filter.rs lines 7-36): the closed set of
predicate kinds a filter may attach to one field. -/
inductive GenericClause where
  | Eq (v : String)
  | Ne (v : String)
  | Gt (v : String)
  | Lt (v : String)
  | Ge (v : String)
  | Le (v : String)
  | Like (v : String)
  | NotLike (v : String)
  | In (vs : List String)
  | NotIn (vs : List String)
  | IsNull
  | IsNotNull
  | Contains (v : Json)
  | HasKey (k : String)

/-- Lookup in an association list modelling `HashMap`: the value of the first
entry carrying the key, as `HashMap::get`. -/
def mapLookup {α : Type} : List (String × α) → String → Option α
  | [], _ => none
  | kv :: rest, k => if kv.1 = k then some kv.2 else mapLookup rest k

/-- Insert into an association list modelling `HashMap::insert`: replaces the
value of an existing key in place, otherwise appends a fresh entry. -/
def mapInsert {α : Type} : List (String × α) → String → α → List (String × α)
  | [], k, v => [(k, v)]
  | kv :: rest, k, v =>
    if kv.1 = k then (k, v) :: rest else kv :: mapInsert rest k v

/-- Embeds `GenericFilter` (src/filter.rs lines 41-49): an optional where-map
from field name to clause, an optional limit and an optional offset. -/
structure GenericFilter where
  «where» : Option (List (String × GenericClause))
  limit : Option Nat
  offset : Option Nat

/-- Embeds `GenericFilter::new` via `Default` (src/filter.rs 52-54): every
field starts out absent. -/
def GenericFilter.new : GenericFilter :=
  { «where» := none, limit := none, offset := none }

/-- Embeds the builder `GenericFilter::limit` (src/filter.rs 56-59): consumes
the receiver and returns it with `limit` set. -/
def GenericFilter.limit' (f : GenericFilter) (n : Nat) : GenericFilter :=
  { f with limit := some n }

/-- Embeds the builder `GenericFilter::offset` (src/filter.rs 61-64): consumes
the receiver and returns it with `offset` set. -/
def GenericFilter.offset' (f : GenericFilter) (n : Nat) : GenericFilter :=
  { f with offset := some n }

/-- Embeds the builder `GenericFilter::r#where` (src/filter.rs 66-76): if the
where-map is absent it is first created empty, then the (key, clause) pair is
inserted into it, and the updated filter is returned. -/
def GenericFilter.rWhere (f : GenericFilter) (key : String)
    (clause : GenericClause) : GenericFilter :=
  let f := if f.«where».isNone then { f with «where» := some [] } else f
  match f.«where» with
  | some m => { f with «where» := some (mapInsert m key clause) }
  | none => f

/-- Embeds the derived `Clone` of `GenericFilter`: a field-wise copy, equal to
the original as a value (no field shares mutable state). -/
def GenericFilter.clone (f : GenericFilter) : GenericFilter :=
  { «where» := f.«where», limit := f.limit, offset := f.offset }

/-- Embeds `DbUser` (src/main.rs lines 15-18): the example entity mapped to
the `users (id, name)` table with primary key `id`. -/
structure DbUser where
  id : String
  name : String
deriving DecidableEq, Repr

/-- Embeds the derived `Clone` of `DbUser`: a field-wise copy. -/
def DbUser.clone (u : DbUser) : DbUser :=
  { id := u.id, name := u.name }

/-- Embeds `impl DbModelDelBy for DbUser :: gen_del_query` (src/main.rs lines
23-43). The boxed delete statement is modelled by the predicate selecting the
rows it deletes. The source builds `diesel::delete(users::table).into_boxed()`
, which matches every row, then binds the filter's where-map to a local
(`let r#where = filter.r#where.clone().unwrap_or_default();`) that it never
applies to the query, and returns the query unchanged. -/
def DbUser.gen_del_query (filter : GenericFilter) : DbUser → Bool :=
  let query : DbUser → Bool := fun _ => true
  let _wher := (GenericFilter.clone filter).«where».getD []
  query

/-- Embeds the unit of work of `DbModelDelBy::del_by` (src/db.rs lines
224-232) acting on a table state: the filter is cloned, `gen_del_query`
produces the delete statement, and executing it removes every row the
statement's predicate matches, returning the surviving rows. -/
def del_by_run (st : List DbUser) (filter : GenericFilter) : List DbUser :=
  let filter := GenericFilter.clone filter
  let query := DbUser.gen_del_query filter
  st.filter (fun row => !(query row))

/-- Kinds of `std::io::Error` used by the driver (src/db.rs uses only
`NotConnected`); `Other` stands for every other kind. -/
inductive IoErrorKind where
  | NotConnected
  | Other
deriving DecidableEq, Repr

/-- Model of `std::io::Error`: a kind together with the payload message the
source attaches via `std::io::Error::new`. -/
structure IoError where
  kind : IoErrorKind
  msg : String
deriving DecidableEq, Repr

/-- Model of `diesel::result::Error`, the single backend-error type of every
operation. `BrokenTransactionManager` is the variant the source maps opaque
infrastructure failures to; the other variants stand for the backend's own
errors (any further diesel variant behaves like `DatabaseError` here). -/
inductive DieselError where
  | BrokenTransactionManager
  | NotFound
  | DatabaseError (info : String)
deriving DecidableEq, Repr

/-- A leased pooled connection (`PooledConnection<ConnectionManager<D>>`),
identified by an id; its internals are irrelevant to the claims. -/
structure Conn where
  connId : Nat
deriving DecidableEq, Repr

/-- Model of `Pool<ConnectionManager<D>>`: the handle the driver stores. -/
structure Pool where
  db_url : String
deriving DecidableEq, Repr

/-- Embeds `DbDriver` (src/db.rs lines 17-22): a struct holding the pool. -/
structure DbDriver where
  pool : Pool
deriving DecidableEq, Repr

/-- Embeds `DbDriver::new` (src/db.rs lines 41-47). `buildResult` is the
external pool builder's outcome for the manager made from the connection
target: on failure the cause is wrapped into an `std::io::Error` of kind
`NotConnected`; on success the driver holding the pool is returned. -/
def DbDriver.new (buildResult : Except String Pool) : Except IoError DbDriver :=
  match buildResult with
  | .error err => .error { kind := IoErrorKind.NotConnected, msg := err }
  | .ok pool => .ok { pool := pool }

/-- Embeds `DbDriver::get_conn` (src/db.rs lines 50-60). `poolResult` is the
pool's answer to `self.pool.get()`: a pool failure is mapped to an
`std::io::Error` of kind `NotConnected` with a formatted message. -/
def DbDriver.get_conn (poolResult : Except String Conn) : Except IoError Conn :=
  match poolResult with
  | .ok c => .ok c
  | .error err =>
    .error { kind := IoErrorKind.NotConnected
             msg := "Failed to get connection: " ++ err }

/-- Embeds `DbDriver::execute` (src/db.rs lines 63-81). The driver clone is a
pool-handle copy, so the offloaded closure sees the same pool; `poolResult` is
that pool's answer to `get_conn`, and `taskCompletes` says whether the
offloaded closure ran to completion (`false` models abnormal termination, the
join handle reporting an error). Inside the closure a connection-acquisition
failure is mapped to `DieselError.BrokenTransactionManager`; the join error is
mapped to the same value; otherwise the unit of work `f` decides the result. -/
def DbDriver.execute {R : Type} (poolResult : Except String Conn)
    (taskCompletes : Bool) (f : Conn → Except DieselError R) :
    Except DieselError R :=
  let joined : Except DieselError (Except DieselError R) :=
    if taskCompletes then
      .ok (match DbDriver.get_conn poolResult with
        | .error _ => .error DieselError.BrokenTransactionManager
        | .ok conn => f conn)
    else .error DieselError.BrokenTransactionManager
  match joined with
  | .error e => .error e
  | .ok r => r

/-- Embeds the unit of work of `DbModelCreate::create` (src/db.rs lines
152-161) against a table state: the argument is cloned (`item.to_owned()`),
inserted into the entity's backing table, and `get_result` returns the row as
the backend persisted it. `users` has no backend-assigned defaults, so the
persisted row is the inserted value; the pair is the updated table and the
operation's result. -/
def DbUser.create (rows : List DbUser) (item : DbUser) :
    List DbUser × Except DieselError DbUser :=
  let cloned := DbUser.clone item
  (rows ++ [cloned], .ok cloned)

/-- Embeds the unit of work of `DbModelDelByPk::del_by_pk` (src/db.rs lines
185-193) against a table state: `diesel::delete(table.find(pk)).execute(conn)`
removes the rows whose primary key equals `pk` and yields the affected-row
count, which the source discards (`?;`) before returning `Ok(())`. `execFail`
injects a backend execution failure (connectivity, etc.); absent a failure the
result is the updated table paired with success. -/
def DbUser.del_by_pk (rows : List DbUser) (pk : String)
    (execFail : Option DieselError) :
    Except DieselError (List DbUser × Unit) :=
  match execFail with
  | some e => .error e
  | none =>
    let remaining := rows.filter (fun r => r.id != pk)
    let _count := rows.length - remaining.length
    .ok (remaining, ())

/-- Serialization of `GenericClause` under serde's derive with
`rename_all = "kebab-case"` and the default external tagging: a data-carrying
variant becomes a one-key object keyed by the kebab-cased variant name, and a
unit variant becomes the kebab-cased variant name as a bare string. -/
def GenericClause.toJson : GenericClause → Json
  | .Eq v => .obj [("eq", .str v)]
  | .Ne v => .obj [("ne", .str v)]
  | .Gt v => .obj [("gt", .str v)]
  | .Lt v => .obj [("lt", .str v)]
  | .Ge v => .obj [("ge", .str v)]
  | .Le v => .obj [("le", .str v)]
  | .Like v => .obj [("like", .str v)]
  | .NotLike v => .obj [("not-like", .str v)]
  | .In vs => .obj [("in", .arr (vs.map Json.str))]
  | .NotIn vs => .obj [("not-in", .arr (vs.map Json.str))]
  | .IsNull => .str "is-null"
  | .IsNotNull => .str "is-not-null"
  | .Contains v => .obj [("contains", v)]
  | .HasKey k => .obj [("has-key", .str k)]

/-- Serialization of an `Option` field under serde's derive: without a
`skip_serializing_if` attribute, `None` serializes as JSON `null` and the
field's key is always emitted. -/
def optJson {α : Type} (f : α → Json) : Option α → Json
  | none => Json.null
  | some a => f a

/-- Serialization of the where-map: a JSON object with one entry per map
entry, each clause serialized by `GenericClause.toJson`. -/
def whereMapJson (m : List (String × GenericClause)) : Json :=
  Json.obj (m.map (fun kv => (kv.1, GenericClause.toJson kv.2)))

/-- Serialization of `GenericFilter` under serde's derive (src/filter.rs
lines 39-49): a struct serializes as an object with one key per field in
declaration order, the `r#where` field renamed to `where`; no field carries
`skip_serializing_if`, so absent options serialize as `null`. -/
def GenericFilter.toJson (f : GenericFilter) : Json :=
  Json.obj
    [ ("where", optJson whereMapJson f.«where»)
    , ("limit", optJson Json.num f.limit)
    , ("offset", optJson Json.num f.offset) ]

/-- Keys of a JSON object, in emission order; `none` on non-objects. -/
def Json.keys : Json → Option (List String)
  | .obj fields => some (fields.map (fun kv => kv.1))
  | _ => none

/-- Field lookup in a JSON object; `none` on non-objects or absent keys. -/
def Json.lookup : Json → String → Option Json
  | .obj fields, key => mapLookup fields key
  | _, _ => none

theorem mapLookup_mapInsert_self {α : Type} (m : List (String × α))
    (k : String) (v : α) : mapLookup (mapInsert m k v) k = some v := by
  induction m with
  | nil => simp [mapInsert, mapLookup]
  | cons kv rest ih =>
    by_cases h : kv.1 = k
    · simp [mapInsert, h, mapLookup]
    · simp [mapInsert, h, mapLookup, ih]

theorem mapLookup_mapInsert_ne {α : Type} (m : List (String × α))
    (k k' : String) (v : α) (h : k' ≠ k) :
    mapLookup (mapInsert m k v) k' = mapLookup m k' := by
  induction m with
  | nil => simp [mapInsert, mapLookup, Ne.symm h]
  | cons kv rest ih =>
    by_cases hkv : kv.1 = k
    · simp [mapInsert, hkv, mapLookup, Ne.symm h]
    · simp [mapInsert, hkv, mapLookup, ih]

/-- Characterization of `GenericFilter.rWhere`: it is the functional update of
the where-map by `mapInsert`, an absent map read as empty. -/
theorem rWhere_eq (f : GenericFilter) (k : String) (c : GenericClause) :
    GenericFilter.rWhere f k c
      = { f with «where» := some (mapInsert ((f.«where»).getD []) k c) } := by
  cases h : f.«where» <;>
    simp [GenericFilter.rWhere, h]

/-- C1: the claim states that `del_by` with the filter
`{where: {id: Eq("1")}}` deletes exactly the row with id "1" and no other,
each where-entry being translated into a native predicate. Evaluating the
embedded code on a two-row table refutes this: `DbUser.gen_del_query` binds
the filter's where-map to a local it never applies to the query, so the
generated delete statement still matches the row with id "2" and the run
deletes every row. -/
theorem c1_del_by_ignores_filter :
    del_by_run
        [{ id := "1", name := "alice" }, { id := "2", name := "bob" }]
        (GenericFilter.new.rWhere "id" (GenericClause.Eq "1")) = []
    ∧ DbUser.gen_del_query
        (GenericFilter.new.rWhere "id" (GenericClause.Eq "1"))
        { id := "2", name := "bob" } = true := by
  exact ⟨rfl, rfl⟩

/-- C2: for every table state and every filter whose where-map is absent or
empty, `del_by` deletes all rows of the table, the generated deletion
statement carrying no restricting predicate. -/
theorem c2_del_by_empty_where_deletes_all (st : List DbUser)
    (f : GenericFilter) (h : f.«where» = none ∨ f.«where» = some []) :
    del_by_run st f = []
    ∧ DbUser.gen_del_query f = fun _ => true := by
  refine ⟨?_, rfl⟩
  simp [del_by_run, DbUser.gen_del_query]

/-- Witness for C2 at the empty filter on a one-row table. -/
theorem c2_witness :
    (GenericFilter.new.«where» = none ∨ GenericFilter.new.«where» = some [])
    ∧ (del_by_run [{ id := "1", name := "alice" }] GenericFilter.new = []
       ∧ DbUser.gen_del_query GenericFilter.new = fun _ => true) :=
  ⟨Or.inl rfl,
   c2_del_by_empty_where_deletes_all [{ id := "1", name := "alice" }]
     GenericFilter.new (Or.inl rfl)⟩

/-- C3: when the unit of work runs to completion (a connection was acquired
and the offloaded task terminated normally), `execute` resolves to exactly the
unit of work's result: an `Err(e)` from the work surfaces as that very error,
an `Ok(r)` surfaces as `Ok(r)`. -/
theorem c3_execute_returns_work_result {R : Type} (c : Conn)
    (f : Conn → Except DieselError R) :
    DbDriver.execute (Except.ok c) true f = f c := rfl

/-- C4: `execute` maps a pool-acquisition failure and an abnormal termination
of the offloaded task each to `DieselError.BrokenTransactionManager`, a value
of the operation's single backend-error type, and in every other case the
unit of work's own result (hence its own backend errors) is the only thing
surfaced. -/
theorem c4_execute_failures_mapped {R : Type} (err : String)
    (pr : Except String Conn) (c : Conn)
    (f : Conn → Except DieselError R) :
    DbDriver.execute (Except.error err) true f
        = Except.error DieselError.BrokenTransactionManager
    ∧ DbDriver.execute pr false f
        = Except.error DieselError.BrokenTransactionManager
    ∧ DbDriver.execute (Except.ok c) true f = f c := by
  exact ⟨rfl, rfl, rfl⟩

/-- C5: `DbDriver::new` fails exactly when the pool builder fails, wrapping
the underlying cause into the returned error and yielding no driver; when the
pool is constructed, it returns `Ok` with a driver holding that pool. -/
theorem c5_new_wraps_pool_build (p : Pool) (err : String) :
    DbDriver.new (Except.error err)
        = Except.error { kind := IoErrorKind.NotConnected, msg := err }
    ∧ DbDriver.new (Except.ok p) = Except.ok { pool := p } := ⟨rfl, rfl⟩

/-- C6: absent a backend execution failure, `del_by_pk` returns success even
when zero rows match the key (the table is unchanged and the affected-row
count is discarded, never turned into an error); in general it succeeds with
the matching rows removed, and a backend failure is the only reported error. -/
theorem c6_del_by_pk_idempotent (rows rows2 : List DbUser) (pk : String)
    (e : DieselError) (h : ∀ r ∈ rows, r.id ≠ pk) :
    DbUser.del_by_pk rows pk none = Except.ok (rows, ())
    ∧ DbUser.del_by_pk rows2 pk none
        = Except.ok (rows2.filter (fun r => r.id != pk), ())
    ∧ DbUser.del_by_pk rows pk (some e) = Except.error e := by
  refine ⟨?_, rfl, rfl⟩
  simp only [DbUser.del_by_pk, Except.ok.injEq, Prod.mk.injEq, and_true]
  rw [List.filter_eq_self]
  intro r hr
  simpa using h r hr

/-- Witness for C6: a key absent from a one-row table. -/
theorem c6_witness :
    (∀ r ∈ [{ id := "1", name := "alice" : DbUser }], DbUser.id r ≠ "9")
    ∧ (DbUser.del_by_pk [{ id := "1", name := "alice" }] "9" none
          = Except.ok ([{ id := "1", name := "alice" }], ())
       ∧ DbUser.del_by_pk [{ id := "9", name := "bob" }] "9" none
          = Except.ok
              ([{ id := "9", name := "bob" : DbUser }].filter
                (fun r => r.id != "9"), ())
       ∧ DbUser.del_by_pk [{ id := "1", name := "alice" }] "9"
            (some DieselError.NotFound) = Except.error DieselError.NotFound) :=
  ⟨by decide,
   c6_del_by_pk_idempotent [{ id := "1", name := "alice" }]
     [{ id := "9", name := "bob" }] "9" DieselError.NotFound (by decide)⟩

/-- C7: `create` works on a clone equal to the caller's value (the caller's
value is unchanged), appends that value to the entity's backing table, and
returns as its result the row as persisted, equal to the input in all
caller-supplied fields. -/
theorem c7_create_roundtrip (rows : List DbUser) (v : DbUser) :
    DbUser.clone v = v
    ∧ (DbUser.create rows v).1 = rows ++ [v]
    ∧ (DbUser.create rows v).2 = Except.ok v := ⟨rfl, rfl, rfl⟩

/-- C8 counterexample: the claim says each of the keys `where`, `limit` and
`offset` is omitted from the serialized object when the field is absent, so
the default filter would serialize to the empty object. The code carries no
`skip_serializing_if`, so the default filter serializes with all three keys
present, each mapped to `null`. -/
theorem c8_counterexample :
    GenericFilter.toJson GenericFilter.new ≠ Json.obj []
    ∧ Json.keys (GenericFilter.toJson GenericFilter.new)
        = some ["where", "limit", "offset"]
    ∧ Json.lookup (GenericFilter.toJson GenericFilter.new) "limit"
        = some Json.null := by
  refine ⟨?_, rfl, rfl⟩
  intro h
  simp [GenericFilter.toJson, GenericFilter.new, optJson] at h

/-- C8 (amended): every `GenericFilter` serializes as an object with exactly
the keys `where`, `limit`, `offset` in that order; an absent field serializes
as `null` under its key (the key is not omitted), a present `limit`/`offset`
as its integer, a present where-map as an object mapping each field name to
its clause's serialization; a data-carrying clause serializes as a one-key
object keyed by the clause kind in kebab-case, while the unit clauses
`IsNull`/`IsNotNull` serialize as the bare kebab-case strings. -/
theorem c8_filter_serialization_shape (f : GenericFilter)
    (m : List (String × GenericClause)) (n : Nat) (s : String)
    (vs : List String) (j : Json) :
    Json.keys (GenericFilter.toJson f) = some ["where", "limit", "offset"]
    ∧ Json.lookup (GenericFilter.toJson f) "where"
        = some (optJson whereMapJson f.«where»)
    ∧ Json.lookup (GenericFilter.toJson f) "limit"
        = some (optJson Json.num f.limit)
    ∧ Json.lookup (GenericFilter.toJson f) "offset"
        = some (optJson Json.num f.offset)
    ∧ optJson Json.num (none : Option Nat) = Json.null
    ∧ optJson Json.num (some n) = Json.num n
    ∧ optJson whereMapJson (none : Option (List (String × GenericClause)))
        = Json.null
    ∧ whereMapJson m
        = Json.obj (m.map (fun kv => (kv.1, GenericClause.toJson kv.2)))
    ∧ GenericClause.toJson (GenericClause.Eq s) = Json.obj [("eq", Json.str s)]
    ∧ GenericClause.toJson (GenericClause.NotLike s)
        = Json.obj [("not-like", Json.str s)]
    ∧ GenericClause.toJson (GenericClause.In vs)
        = Json.obj [("in", Json.arr (vs.map Json.str))]
    ∧ GenericClause.toJson (GenericClause.Contains j)
        = Json.obj [("contains", j)]
    ∧ GenericClause.toJson GenericClause.IsNull = Json.str "is-null"
    ∧ GenericClause.toJson GenericClause.IsNotNull = Json.str "is-not-null" :=
  ⟨rfl, rfl, rfl, rfl, rfl, rfl, rfl, rfl, rfl, rfl, rfl, rfl, rfl, rfl⟩

/-- C9: a filter value handed to an operation is never mutated by it: the
derived clone used by `del_by` is equal to the caller's value and the deletion
run is determined by that value alone, and each builder method consumes its
receiver and returns a new value that is a functional update of it, leaving
any other holder's copy untouched. -/
theorem c9_filter_immutable (f : GenericFilter) (k : String)
    (c : GenericClause) (n m : Nat) (st : List DbUser) :
    GenericFilter.clone f = f
    ∧ del_by_run st (GenericFilter.clone f) = del_by_run st f
    ∧ GenericFilter.limit' f n = { f with limit := some n }
    ∧ GenericFilter.offset' f m = { f with offset := some m }
    ∧ GenericFilter.rWhere f k c
        = { f with «where» := some (mapInsert ((f.«where»).getD []) k c) } :=
  ⟨rfl, rfl, rfl, rfl, rWhere_eq f k c⟩

/-- C10: inserting two clauses for the same key through the builder keeps only
the later clause: the resulting where-map is present, maps the key to the
second clause, agrees with the original filter's where-map on every other
key, and `limit` and `offset` are untouched. -/
theorem c10_rWhere_last_wins (f : GenericFilter) (k k' : String)
    (c1 c2 : GenericClause) (hk : k' ≠ k) :
    ((f.rWhere k c1).rWhere k c2).«where» ≠ none
    ∧ mapLookup ((((f.rWhere k c1).rWhere k c2).«where»).getD []) k = some c2
    ∧ mapLookup ((((f.rWhere k c1).rWhere k c2).«where»).getD []) k'
        = mapLookup ((f.«where»).getD []) k'
    ∧ ((f.rWhere k c1).rWhere k c2).limit = f.limit
    ∧ ((f.rWhere k c1).rWhere k c2).offset = f.offset := by
  rw [rWhere_eq, rWhere_eq]
  refine ⟨by simp, ?_, ?_, rfl, rfl⟩
  · simpa using mapLookup_mapInsert_self _ k c2
  · simp only [Option.getD_some]
    rw [mapLookup_mapInsert_ne _ _ _ _ hk, mapLookup_mapInsert_ne _ _ _ _ hk]

/-- Witness for C10: two clauses for key `id` on the fresh filter, observed at
the distinct key `name`. -/
theorem c10_witness :
    ("name" ≠ "id" : Prop)
    ∧ (((GenericFilter.new.rWhere "id" (GenericClause.Eq "1")).rWhere "id"
          (GenericClause.Eq "2")).«where» ≠ none
       ∧ mapLookup ((((GenericFilter.new.rWhere "id"
            (GenericClause.Eq "1")).rWhere "id"
            (GenericClause.Eq "2")).«where»).getD []) "id"
          = some (GenericClause.Eq "2")
       ∧ mapLookup ((((GenericFilter.new.rWhere "id"
            (GenericClause.Eq "1")).rWhere "id"
            (GenericClause.Eq "2")).«where»).getD []) "name"
          = mapLookup ((GenericFilter.new.«where»).getD []) "name"
       ∧ ((GenericFilter.new.rWhere "id" (GenericClause.Eq "1")).rWhere "id"
            (GenericClause.Eq "2")).limit = GenericFilter.new.limit
       ∧ ((GenericFilter.new.rWhere "id" (GenericClause.Eq "1")).rWhere "id"
            (GenericClause.Eq "2")).offset = GenericFilter.new.offset) :=
  ⟨by decide,
   c10_rWhere_last_wins GenericFilter.new "id" "name" (GenericClause.Eq "1")
     (GenericClause.Eq "2") (by decide)⟩
